import Mathlib

set_option linter.unusedVariables false
set_option linter.unreachableTactic false
set_option linter.unusedTactic false

/-!
Verification development for the Gold-Price-Prediction repository
(Smart_Gold_Advisor core modules).

The Python modules are shallowly embedded:

- Python floats are modelled as exact rationals.  All numeric literals of the
  source (1.0, 0.2, 0.3, ...) are read as the exact rationals they denote.
  For the NaN-propagation analysis a second model is used in the FloatModel
  namespace, where a number is an Option on the rationals and the missing
  value plays the role of IEEE NaN (every comparison involving it is false,
  every arithmetic operation returns it).
- Pandas frames are modelled as lists of rows; dates are natural numbers.
- The sklearn pieces (MinMaxScaler, RandomForestRegressor) are modelled by
  their interface contracts: a scaler is its fitted pair of bounds and a
  fitted regressor is an abstract function on feature vectors together with
  the feature dimension it was fitted with, which it validates on every
  predict call (sklearn rejects inputs whose width differs from the fitted
  width).
-/

/-! ## Recommendation engine, src/recommendation_engine.py, exact fragment -/

namespace Engine

/-- InvestmentRecommendationEngine.analyze_price_trend: percent change and
trend label, thresholds 1.0 and 0.2. -/
def analyze_price_trend (current_price predicted_price : ℚ) : String × ℚ :=
  let price_change := predicted_price - current_price
  let price_change_pct := price_change / current_price * 100
  if price_change_pct > 1 then ("strong_up", price_change_pct)
  else if price_change_pct > 1/5 then ("up", price_change_pct)
  else if price_change_pct < -1 then ("strong_down", price_change_pct)
  else if price_change_pct < -(1/5) then ("down", price_change_pct)
  else ("stable", price_change_pct)

/-- InvestmentRecommendationEngine.analyze_sentiment: strength label,
thresholds 0.3 and 0.1. -/
def analyze_sentiment (sentiment_score : ℚ) : String × ℚ :=
  if sentiment_score > 3/10 then ("very_positive", sentiment_score)
  else if sentiment_score > 1/10 then ("positive", sentiment_score)
  else if sentiment_score < -(3/10) then ("very_negative", sentiment_score)
  else if sentiment_score < -(1/10) then ("negative", sentiment_score)
  else ("neutral", sentiment_score)

/-- Membership test used repeatedly by the source, trend in a rising state. -/
def trendUp (t : String) : Bool := t == "strong_up" || t == "up"

/-- Trend in a falling state. -/
def trendDown (t : String) : Bool := t == "strong_down" || t == "down"

/-- Sentiment label on the positive side. -/
def sentPos (l : String) : Bool := l == "very_positive" || l == "positive"

/-- Sentiment label on the negative side. -/
def sentNeg (l : String) : Bool := l == "very_negative" || l == "negative"

/-- The alignment base score computed inline by calculate_confidence. -/
def alignment_score (trend sent : String) : ℚ :=
  if (trendUp trend && sentPos sent) || (trendDown trend && sentNeg sent) then 4/5
  else if ((trendUp trend || trendDown trend) && sent == "neutral")
      || (trend == "stable" && (sent == "very_positive" || sent == "very_negative")) then 3/5
  else if trend == "stable" && sent == "neutral" then 2/5
  else 1/5

/-- InvestmentRecommendationEngine.calculate_confidence. -/
def calculate_confidence (trend sent : String) (price_change_pct sentiment_score : ℚ) : ℚ :=
  let magnitude_factor := min (|price_change_pct| / 2) 1 * (1/5)
  let sentiment_factor := min (|sentiment_score| * 2) 1 * (1/5)
  min (alignment_score trend sent + magnitude_factor + sentiment_factor) 1

/-- The decision chain of generate_recommendation (the five branches; the last
three all select HOLD and differ only in the reasoning strings, which are not
modelled here). -/
def recommendation_action (trend sent : String) : String :=
  if trendUp trend && sentPos sent then "BUY"
  else if trendDown trend && sentNeg sent then "SELL"
  else if trendUp trend && sentNeg sent then "HOLD"
  else if trendDown trend && sentPos sent then "HOLD"
  else "HOLD"

/-- The fields of the dict returned by generate_recommendation that carry
numeric or categorical data (the reasoning strings are presentation only and
not modelled). -/
structure Recommendation where
  recommendation : String
  confidence : ℚ
  current_price : ℚ
  predicted_price : ℚ
  price_change_pct : ℚ
  sentiment_score : ℚ
  price_trend : String
  sentiment_strength : String

/-- InvestmentRecommendationEngine.generate_recommendation. -/
def generate_recommendation (current_price predicted_price sentiment_score : ℚ) :
    Recommendation :=
  let tp := analyze_price_trend current_price predicted_price
  let sl := analyze_sentiment sentiment_score
  let conf := calculate_confidence tp.1 sl.1 tp.2 sentiment_score
  { recommendation := recommendation_action tp.1 sl.1
    confidence := conf
    current_price := current_price
    predicted_price := predicted_price
    price_change_pct := tp.2
    sentiment_score := sentiment_score
    price_trend := tp.1
    sentiment_strength := sl.1 }

/-- The alignment-base table exactly as the specification describes it,
reading the decisive sentiment of the trend-stable clause as the two strong
labels (the reading under which the clause agrees with the residual 0.2
bucket of the same sentence).  Written from the spec for comparison with
alignment_score, which is written from the source. -/
def claimAlignBase (trend sent : String) : ℚ :=
  if ((trend == "strong_up" || trend == "up") && (sent == "very_positive" || sent == "positive"))
      || ((trend == "strong_down" || trend == "down") && (sent == "very_negative" || sent == "negative"))
    then 4/5
  else if ((!(trend == "stable")) && sent == "neutral")
      || (trend == "stable" && (sent == "very_positive" || sent == "very_negative"))
    then 3/5
  else if trend == "stable" && sent == "neutral" then 2/5
  else 1/5

end Engine

/-! ## Keyword sentiment scorer, src/real_time_sentiment.py -/

namespace SentimentRT

/-- Positive keyword list of RealTimeSentimentAnalyzer. -/
def positive_keywords : List String :=
  ["rise", "up", "gain", "increase", "surge", "rally", "bullish", "strong",
   "positive", "optimistic", "growth", "demand", "inflation", "safe haven",
   "uncertainty", "crisis", "fear", "volatility", "dollar weak", "fed cut",
   "stimulus", "quantitative easing", "recession", "geopolitical"]

/-- Negative keyword list of RealTimeSentimentAnalyzer. -/
def negative_keywords : List String :=
  ["fall", "down", "drop", "decline", "plunge", "crash", "bearish", "weak",
   "negative", "pessimistic", "loss", "supply", "deflation", "dollar strong",
   "fed hike", "rate increase", "tapering", "recovery", "stability", "peace"]

/-- Neutral keyword list of RealTimeSentimentAnalyzer. -/
def neutral_keywords : List String :=
  ["stable", "unchanged", "flat", "sideways", "consolidation", "range",
   "technical", "analysis", "chart", "support", "resistance", "trend"]

/-- Contiguous-substring test on character lists, the semantics of the Python
membership test on strings. -/
def chSub : List Char → List Char → Bool
  | n, [] => n.isEmpty
  | n, h :: t => n.isPrefixOf (h :: t) || chSub n t

/-- Python lowercasing, modelled characterwise. -/
def lowered (text : String) : String := String.mk (text.data.map Char.toLower)

/-- Number of keywords of a list occurring in the lowered text, the
generator-sum of the source. -/
def count_hits (kws : List String) (t : String) : ℕ :=
  (kws.filter (fun k => chSub k.data t.data)).length

/-- Positive hit count of analyze_sentiment. -/
def positive_count (text : String) : ℕ := count_hits positive_keywords (lowered text)

/-- Negative hit count of analyze_sentiment. -/
def negative_count (text : String) : ℕ := count_hits negative_keywords (lowered text)

/-- Neutral hit count of analyze_sentiment. -/
def neutral_count (text : String) : ℕ := count_hits neutral_keywords (lowered text)

/-- Total keyword count of analyze_sentiment. -/
def total_keywords (text : String) : ℕ :=
  positive_count text + negative_count text + neutral_count text

/-- The strength binning applied to the computed score. -/
def strength_of (score : ℚ) : String :=
  if score > 3/10 then "very_positive"
  else if score > 1/10 then "positive"
  else if score < -(3/10) then "very_negative"
  else if score < -(1/10) then "negative"
  else "neutral"

/-- RealTimeSentimentAnalyzer.analyze_sentiment. -/
def analyze_sentiment (text : String) : ℚ × String :=
  if total_keywords text = 0 then (0, "neutral")
  else
    let sentiment_score : ℚ :=
      ((positive_count text : ℚ) - (negative_count text : ℚ)) / (total_keywords text : ℚ)
    (sentiment_score, strength_of sentiment_score)

end SentimentRT

/-! ## Preprocessor, src/data_preprocessing.py (clean_gold_data, merge_data) -/

namespace Prep

/-- A raw row of the gold CSV after date parsing: date plus a possibly
missing SF_Price. -/
structure GoldRow where
  date : ℕ
  price : Option ℚ

/-- An aggregated sentiment row: date, daily sentiment score, combined
headline text. -/
structure SentRow where
  date : ℕ
  sentiment_score : ℚ
  news : String

/-- A row of the merged frame produced by merge_data. -/
structure MergedRow where
  date : ℕ
  price : ℚ
  sentiment_score : ℚ
  news : String

/-- Sorting key of the gold frame, ascending date. -/
def goldLe : (ℕ × ℚ) → (ℕ × ℚ) → Prop := fun a b => a.1 ≤ b.1

instance : DecidableRel goldLe := fun a b => inferInstanceAs (Decidable (a.1 ≤ b.1))

instance : IsTotal (ℕ × ℚ) goldLe := ⟨fun a b => Nat.le_total a.1 b.1⟩

instance : IsTrans (ℕ × ℚ) goldLe := ⟨fun _ _ _ h1 h2 => Nat.le_trans h1 h2⟩

/-- Sorting key of the merged frame, ascending date. -/
def mergedLe : MergedRow → MergedRow → Prop := fun a b => a.date ≤ b.date

instance : DecidableRel mergedLe := fun a b => inferInstanceAs (Decidable (a.date ≤ b.date))

instance : IsTotal MergedRow mergedLe := ⟨fun a b => Nat.le_total a.date b.date⟩

instance : IsTrans MergedRow mergedLe := ⟨fun _ _ _ h1 h2 => Nat.le_trans h1 h2⟩

/-- The rows surviving the dropna on SF_Price, in source order. -/
def valid_gold_rows (rows : List GoldRow) : List (ℕ × ℚ) :=
  rows.filterMap (fun r => r.price.map (fun p => (r.date, p)))

/-- DataPreprocessor.clean_gold_data: keep Date and SF_Price, drop rows with
a missing price, sort ascending by date.  No de-duplication is performed. -/
def clean_gold_data (rows : List GoldRow) : List (ℕ × ℚ) :=
  (valid_gold_rows rows).insertionSort goldLe

/-- The rows a single gold row contributes to the left merge: one row per
matching sentiment date, or one gap row with sentiment 0 and empty news (the
fillna steps of merge_data) when no sentiment date matches. -/
def merge_rows (sent : List SentRow) (g : ℕ × ℚ) : List MergedRow :=
  match sent.filter (fun s => s.date == g.1) with
  | [] => [⟨g.1, g.2, 0, ""⟩]
  | ms => ms.map (fun s => ⟨g.1, g.2, s.sentiment_score, s.news⟩)

/-- DataPreprocessor.merge_data: left join sentiment onto the gold frame by
date, fill missing sentiment with 0 and missing news with the empty string,
sort ascending by date. -/
def merge_data (gold : List (ℕ × ℚ)) (sent : List SentRow) : List MergedRow :=
  ((gold.map (merge_rows sent)).flatten).insertionSort mergedLe

/-- The clean-then-merge composition the merged frame of the pipeline goes
through (the sentiment aggregation step is taken as input here). -/
def preprocess (rows : List GoldRow) (sent : List SentRow) : List MergedRow :=
  merge_data (clean_gold_data rows) sent

end Prep

/-! ## Forecaster, src/gold_predictor.py -/

namespace Predictor

/-- A row of the merged daily series consumed by GoldPricePredictor. -/
structure SeriesRow where
  date : ℕ
  price : ℚ
  sentiment_score : ℚ
  news : String

/-- Fitted MinMaxScaler state: the bounds learned by fit_transform. -/
structure MinMaxBounds where
  lo : ℚ
  hi : ℚ

/-- MinMaxScaler.transform for one value. -/
def scale (b : MinMaxBounds) (x : ℚ) : ℚ := (x - b.lo) / (b.hi - b.lo)

/-- MinMaxScaler.inverse_transform for one value. -/
def inverse_scale (b : MinMaxBounds) (y : ℚ) : ℚ := y * (b.hi - b.lo) + b.lo

/-- A fitted regressor: the feature width it was fitted with and its
regression function. -/
structure FittedModel where
  n_features : ℕ
  eval : List ℚ → ℚ

/-- The predict call of the fitted regressor.  sklearn validates the feature
width of every input against the fitted width and rejects a mismatch; that
contract is modelled by the None result. -/
def FittedModel.run (m : FittedModel) (x : List ℚ) : Option ℚ :=
  if x.length = m.n_features then some (m.eval x) else none

/-- GoldPricePredictor state: configured window size, the two scalers, the
model and the trained flag. -/
structure GoldPricePredictor where
  sequence_length : ℕ
  scaler_price : MinMaxBounds
  scaler_sentiment : MinMaxBounds
  model : FittedModel
  is_trained : Bool

/-- The errors a predict call can surface: the explicit ValueError raised on
an untrained model, the sklearn rejection of a feature vector of the wrong
width, and the dedicated insufficient-rows error the specification names
(present in the taxonomy; the source never raises it). -/
inductive PredictError where
  | notTrained
  | featureShapeMismatch
  | insufficientData
deriving DecidableEq

/-- Pandas tail: the last n rows, or all rows when fewer than n exist. -/
def tail_rows (data : List SeriesRow) (n : ℕ) : List SeriesRow :=
  data.drop (data.length - n)

/-- GoldPricePredictor.predict_next_day: guard on the trained flag, take the
last sequence_length rows, scale both columns, concatenate, run the model,
inverse-scale the output. -/
def predict_next_day (st : GoldPricePredictor) (data : List SeriesRow) :
    Except PredictError ℚ :=
  if st.is_trained = false then .error .notTrained
  else
    let lastRows := tail_rows data st.sequence_length
    let prices_scaled := lastRows.map (fun r => scale st.scaler_price r.price)
    let sentiment_scaled := lastRows.map (fun r => scale st.scaler_sentiment r.sentiment_score)
    let combined_features := prices_scaled ++ sentiment_scaled
    match st.model.run combined_features with
    | some y => .ok (inverse_scale st.scaler_price y)
    | none => .error .featureShapeMismatch

/-- Mean of the Sentiment_score column (pandas mean). -/
def mean_sentiment (rows : List SeriesRow) : ℚ :=
  (rows.map SeriesRow.sentiment_score).sum / (rows.length : ℚ)

/-- Date of the synthetic next row: last date plus one day. -/
def next_date (rows : List SeriesRow) : ℕ :=
  (rows.getLast?.map (fun r => r.date + 1)).getD 1

/-- The synthetic row appended after each horizon step: the predicted price
with the mean sentiment of the working series so far and empty news. -/
def append_synthetic (p : List SeriesRow → ℚ) (cur : List SeriesRow) : List SeriesRow :=
  cur ++ [⟨next_date cur, p cur, mean_sentiment cur, ""⟩]

/-- The recursion of predict_next_week, generalised over the number of steps
and over the single-step predictor p (which stands for predict_next_day of a
fixed trained state). -/
def predict_horizon (p : List SeriesRow → ℚ) : List SeriesRow → ℕ → List ℚ
  | _, 0 => []
  | cur, n + 1 => p cur :: predict_horizon p (append_synthetic p cur) n

/-- GoldPricePredictor.predict_next_week: seven recursive steps. -/
def predict_next_week (p : List SeriesRow → ℚ) (data : List SeriesRow) : List ℚ :=
  predict_horizon p data 7

/-- The working series after i horizon steps: the input extended with one
synthetic row per completed step. -/
def working_series (p : List SeriesRow → ℚ) (data : List SeriesRow) : ℕ → List SeriesRow
  | 0 => data
  | i + 1 => append_synthetic p (working_series p data i)

/-- The model file written by save_model (joblib.dump of the model). -/
structure ModelBlob where
  model : FittedModel

/-- The scaler file written by save_model (joblib.dump of the two fitted
scalers).  Neither file records the configured sequence_length. -/
structure ScalerBlob where
  price_scaler : MinMaxBounds
  sentiment_scaler : MinMaxBounds

/-- GoldPricePredictor.save_model: dump model and scalers when trained,
otherwise do nothing. -/
def save_model (st : GoldPricePredictor) : Option (ModelBlob × ScalerBlob) :=
  if st.is_trained then some (⟨st.model⟩, ⟨st.scaler_price, st.scaler_sentiment⟩) else none

/-- GoldPricePredictor.load_model: install the loaded model and scalers and
set the trained flag.  The configured sequence_length of the importing
instance is kept untouched and nothing is validated. -/
def load_model (st : GoldPricePredictor) (mb : ModelBlob) (sb : ScalerBlob) :
    GoldPricePredictor :=
  { st with
    model := mb.model
    scaler_price := sb.price_scaler
    scaler_sentiment := sb.sentiment_scaler
    is_trained := true }

/-- A trained state used for the concrete window-boundary facts: window 2,
model fitted on 2 times 2 features. -/
def toy_state : GoldPricePredictor :=
  ⟨2, ⟨0, 1⟩, ⟨0, 1⟩, ⟨4, fun _ => 0⟩, true⟩

/-- An untrained state. -/
def fresh_state : GoldPricePredictor :=
  ⟨10, ⟨0, 0⟩, ⟨0, 0⟩, ⟨0, fun _ => 0⟩, false⟩

/-- A trained exporter configured with window 30: its model was fitted on 60
features. -/
def demo_exporter : GoldPricePredictor :=
  ⟨30, ⟨0, 1⟩, ⟨0, 1⟩, ⟨60, fun _ => 0⟩, true⟩

/-- The state of a fresh forecaster configured with window 10 after it loads
the files exported by demo_exporter. -/
def demo_loaded : GoldPricePredictor :=
  match save_model demo_exporter with
  | some (mb, sb) => load_model fresh_state mb sb
  | none => fresh_state

/-- Ten one-valued series rows, a full window for the importing
configuration of demo_loaded. -/
def ten_rows : List SeriesRow :=
  (List.range 10).map (fun i => ⟨i, 1, 0, ""⟩)

end Predictor

/-! ## Float model of the recommendation engine, for NaN behaviour

A Python float is modelled as an Option on the rationals, the missing value
standing for NaN: arithmetic involving NaN yields NaN and every ordered
comparison involving NaN is false, which is the IEEE behaviour the source
relies on. -/

namespace FloatModel

/-- A Python float: a rational or NaN. -/
abbrev PF := Option ℚ

/-- Float addition. -/
def pf_add : PF → PF → PF
  | some a, some b => some (a + b)
  | _, _ => none

/-- Float subtraction. -/
def pf_sub : PF → PF → PF
  | some a, some b => some (a - b)
  | _, _ => none

/-- Float multiplication. -/
def pf_mul : PF → PF → PF
  | some a, some b => some (a * b)
  | _, _ => none

/-- Float division; a zero divisor is mapped to NaN as well (the claims under
study never divide by zero). -/
def pf_div : PF → PF → PF
  | some a, some b => if b = 0 then none else some (a / b)
  | _, _ => none

/-- Float absolute value. -/
def pf_abs : PF → PF
  | some a => some |a|
  | none => none

/-- Strict less-than; false whenever NaN is involved. -/
def pf_lt : PF → PF → Bool
  | some a, some b => decide (a < b)
  | _, _ => false

/-- Strict greater-than; false whenever NaN is involved. -/
def pf_gt : PF → PF → Bool
  | some a, some b => decide (b < a)
  | _, _ => false

/-- The Python two-argument min builtin: the second argument replaces the
first only when it compares strictly below it, so min of NaN and x is NaN. -/
def pf_min (a b : PF) : PF := if pf_lt b a then b else a

/-- analyze_price_trend over floats. -/
def analyze_price_trendF (current_price predicted_price : PF) : String × PF :=
  let price_change := pf_sub predicted_price current_price
  let price_change_pct := pf_mul (pf_div price_change current_price) (some 100)
  if pf_gt price_change_pct (some 1) then ("strong_up", price_change_pct)
  else if pf_gt price_change_pct (some (1/5)) then ("up", price_change_pct)
  else if pf_lt price_change_pct (some (-1)) then ("strong_down", price_change_pct)
  else if pf_lt price_change_pct (some (-(1/5))) then ("down", price_change_pct)
  else ("stable", price_change_pct)

/-- analyze_sentiment over floats. -/
def analyze_sentimentF (sentiment_score : PF) : String × PF :=
  if pf_gt sentiment_score (some (3/10)) then ("very_positive", sentiment_score)
  else if pf_gt sentiment_score (some (1/10)) then ("positive", sentiment_score)
  else if pf_lt sentiment_score (some (-(3/10))) then ("very_negative", sentiment_score)
  else if pf_lt sentiment_score (some (-(1/10))) then ("negative", sentiment_score)
  else ("neutral", sentiment_score)

/-- calculate_confidence over floats, with the same alignment table (the
labels are plain strings, so the rational-valued table is reused). -/
def calculate_confidenceF (trend sent : String) (price_change_pct sentiment_score : PF) : PF :=
  let alignment : PF := some (Engine.alignment_score trend sent)
  let magnitude_factor := pf_mul (pf_min (pf_div (pf_abs price_change_pct) (some 2)) (some 1)) (some (1/5))
  let sentiment_factor := pf_mul (pf_min (pf_mul (pf_abs sentiment_score) (some 2)) (some 1)) (some (1/5))
  pf_min (pf_add (pf_add alignment magnitude_factor) sentiment_factor) (some 1)

/-- generate_recommendation over floats: the action, the confidence and the
percent change of the returned dict. -/
def generate_recommendationF (current_price predicted_price sentiment_score : PF) :
    String × PF × PF :=
  let tp := analyze_price_trendF current_price predicted_price
  let sl := analyze_sentimentF sentiment_score
  let conf := calculate_confidenceF tp.1 sl.1 tp.2 sentiment_score
  (Engine.recommendation_action tp.1 sl.1, conf, tp.2)

end FloatModel

/-! ## Helper lemmas about the recommendation engine -/

lemma trend_pct_eq (c p : ℚ) :
    (Engine.analyze_price_trend c p).2 = (p - c) / c * 100 := by
  unfold Engine.analyze_price_trend
  dsimp only
  split_ifs <;> rfl

lemma trend_label_mem (c p : ℚ) :
    (Engine.analyze_price_trend c p).1 ∈ ["strong_up", "up", "strong_down", "down", "stable"] := by
  unfold Engine.analyze_price_trend
  dsimp only
  split_ifs <;> simp

lemma sent_label_mem (s : ℚ) :
    (Engine.analyze_sentiment s).1 ∈ ["very_positive", "positive", "very_negative", "negative", "neutral"] := by
  unfold Engine.analyze_sentiment
  split_ifs <;> simp

lemma trend_strong_up_iff (c p : ℚ) :
    (Engine.analyze_price_trend c p).1 = "strong_up" ↔ 1 < (p - c) / c * 100 := by
  unfold Engine.analyze_price_trend
  dsimp only
  split_ifs <;> simp_all
  all_goals first
    | linarith
    | (intro h2; linarith)
    | (rintro ⟨h2, h3⟩; linarith)
    | (constructor <;> linarith)

lemma trend_up_iff (c p : ℚ) :
    (Engine.analyze_price_trend c p).1 = "up" ↔
      (1/5 < (p - c) / c * 100 ∧ (p - c) / c * 100 ≤ 1) := by
  unfold Engine.analyze_price_trend
  dsimp only
  split_ifs <;> simp_all
  all_goals first
    | linarith
    | (intro h2; linarith)
    | (rintro ⟨h2, h3⟩; linarith)
    | (constructor <;> linarith)

lemma trend_strong_down_iff (c p : ℚ) :
    (Engine.analyze_price_trend c p).1 = "strong_down" ↔ (p - c) / c * 100 < -1 := by
  unfold Engine.analyze_price_trend
  dsimp only
  split_ifs <;> simp_all
  all_goals first
    | linarith
    | (intro h2; linarith)
    | (rintro ⟨h2, h3⟩; linarith)
    | (constructor <;> linarith)

lemma trend_down_iff (c p : ℚ) :
    (Engine.analyze_price_trend c p).1 = "down" ↔
      (-1 ≤ (p - c) / c * 100 ∧ (p - c) / c * 100 < -(1/5)) := by
  unfold Engine.analyze_price_trend
  dsimp only
  split_ifs <;> simp_all
  all_goals first
    | linarith
    | (intro h2; linarith)
    | (rintro ⟨h2, h3⟩; linarith)
    | (constructor <;> linarith)

lemma trend_stable_iff (c p : ℚ) :
    (Engine.analyze_price_trend c p).1 = "stable" ↔
      (-(1/5) ≤ (p - c) / c * 100 ∧ (p - c) / c * 100 ≤ 1/5) := by
  unfold Engine.analyze_price_trend
  dsimp only
  split_ifs <;> simp_all
  all_goals first
    | linarith
    | (intro h2; linarith)
    | (rintro ⟨h2, h3⟩; linarith)
    | (constructor <;> linarith)

/-- C3: for every pair of finite numbers with nonzero current price, the
price-trend classification computes pct as (predicted - current)/current*100
and assigns the five labels by the exact strict thresholds 1.0 and 0.2 (and
their negatives), stable covering the closed middle band. -/
theorem c3_trend_thresholds (current predicted : ℚ) (h : current ≠ 0) :
    (Engine.analyze_price_trend current predicted).2 = (predicted - current) / current * 100 ∧
    ((Engine.analyze_price_trend current predicted).1 = "strong_up" ↔
      1 < (predicted - current) / current * 100) ∧
    ((Engine.analyze_price_trend current predicted).1 = "up" ↔
      (1/5 < (predicted - current) / current * 100 ∧ (predicted - current) / current * 100 ≤ 1)) ∧
    ((Engine.analyze_price_trend current predicted).1 = "strong_down" ↔
      (predicted - current) / current * 100 < -1) ∧
    ((Engine.analyze_price_trend current predicted).1 = "down" ↔
      (-1 ≤ (predicted - current) / current * 100 ∧ (predicted - current) / current * 100 < -(1/5))) ∧
    ((Engine.analyze_price_trend current predicted).1 = "stable" ↔
      (-(1/5) ≤ (predicted - current) / current * 100 ∧ (predicted - current) / current * 100 ≤ 1/5)) :=
  ⟨trend_pct_eq current predicted, trend_strong_up_iff current predicted,
   trend_up_iff current predicted, trend_strong_down_iff current predicted,
   trend_down_iff current predicted, trend_stable_iff current predicted⟩

/-- Witness for C3 at the spec scenario current 1800, predicted 1805:
pct is five eighteenths, strictly between one fifth and one, so the label
is up. -/
theorem c3_witness : (Engine.analyze_price_trend 1800 1805).1 = "up" := by
  have h := c3_trend_thresholds 1800 1805 (by norm_num)
  exact h.2.2.1.mpr (by norm_num)

lemma not_up_and_down (t : String) :
    ¬(Engine.trendUp t = true ∧ Engine.trendDown t = true) := by
  simp only [Engine.trendUp, Engine.trendDown, Bool.or_eq_true, beq_iff_eq]
  rintro ⟨h1 | h1, h2 | h2⟩ <;> subst h1 <;> simp_all

lemma action_buy_iff (t sl : String) :
    Engine.recommendation_action t sl = "BUY" ↔
      (Engine.trendUp t && Engine.sentPos sl) = true := by
  unfold Engine.recommendation_action
  split_ifs <;> simp_all

lemma action_sell_iff (t sl : String) :
    Engine.recommendation_action t sl = "SELL" ↔
      (Engine.trendDown t && Engine.sentNeg sl) = true := by
  unfold Engine.recommendation_action
  split_ifs with h1 h2 <;> simp_all
  intro h3
  exact absurd ⟨h1.1, h3⟩ (not_up_and_down t)

lemma action_hold_iff (t sl : String) :
    Engine.recommendation_action t sl = "HOLD" ↔
      (¬(Engine.trendUp t = true ∧ Engine.sentPos sl = true) ∧
       ¬(Engine.trendDown t = true ∧ Engine.sentNeg sl = true)) := by
  unfold Engine.recommendation_action
  split_ifs <;> simp_all

/-- C1: for every finite numeric input with nonzero current price, the action
is BUY exactly when the trend label is strong_up or up and the sentiment
label is very_positive or positive, SELL exactly when the trend label is
strong_down or down and the sentiment label is very_negative or negative,
and HOLD in every other case. -/
theorem c1_decision_table (current predicted sentiment : ℚ) (h : current ≠ 0) :
    ((Engine.generate_recommendation current predicted sentiment).recommendation = "BUY" ↔
      (((Engine.analyze_price_trend current predicted).1 = "strong_up" ∨
        (Engine.analyze_price_trend current predicted).1 = "up") ∧
       ((Engine.analyze_sentiment sentiment).1 = "very_positive" ∨
        (Engine.analyze_sentiment sentiment).1 = "positive"))) ∧
    ((Engine.generate_recommendation current predicted sentiment).recommendation = "SELL" ↔
      (((Engine.analyze_price_trend current predicted).1 = "strong_down" ∨
        (Engine.analyze_price_trend current predicted).1 = "down") ∧
       ((Engine.analyze_sentiment sentiment).1 = "very_negative" ∨
        (Engine.analyze_sentiment sentiment).1 = "negative"))) ∧
    ((Engine.generate_recommendation current predicted sentiment).recommendation = "HOLD" ↔
      (¬(((Engine.analyze_price_trend current predicted).1 = "strong_up" ∨
          (Engine.analyze_price_trend current predicted).1 = "up") ∧
         ((Engine.analyze_sentiment sentiment).1 = "very_positive" ∨
          (Engine.analyze_sentiment sentiment).1 = "positive")) ∧
       ¬(((Engine.analyze_price_trend current predicted).1 = "strong_down" ∨
          (Engine.analyze_price_trend current predicted).1 = "down") ∧
         ((Engine.analyze_sentiment sentiment).1 = "very_negative" ∨
          (Engine.analyze_sentiment sentiment).1 = "negative")))) := by
  have hact : (Engine.generate_recommendation current predicted sentiment).recommendation =
      Engine.recommendation_action (Engine.analyze_price_trend current predicted).1
        (Engine.analyze_sentiment sentiment).1 := rfl
  rw [hact]
  refine ⟨?_, ?_, ?_⟩
  · simpa [Engine.trendUp, Engine.sentPos, Bool.and_eq_true, Bool.or_eq_true, beq_iff_eq]
      using action_buy_iff (Engine.analyze_price_trend current predicted).1
        (Engine.analyze_sentiment sentiment).1
  · simpa [Engine.trendDown, Engine.sentNeg, Bool.and_eq_true, Bool.or_eq_true, beq_iff_eq]
      using action_sell_iff (Engine.analyze_price_trend current predicted).1
        (Engine.analyze_sentiment sentiment).1
  · simpa [Engine.trendUp, Engine.trendDown, Engine.sentPos, Engine.sentNeg,
      Bool.and_eq_true, Bool.or_eq_true, beq_iff_eq]
      using action_hold_iff (Engine.analyze_price_trend current predicted).1
        (Engine.analyze_sentiment sentiment).1

/-- Witness for C1 at the spec scenario current 1800, predicted 1850,
sentiment one half: the action is BUY. -/
theorem c1_witness : (Engine.generate_recommendation 1800 1850 (1/2)).recommendation = "BUY" := by
  have h := c1_decision_table 1800 1850 (1/2) (by norm_num)
  apply h.1.mpr
  constructor
  · left
    norm_num [Engine.analyze_price_trend]
  · left
    norm_num [Engine.analyze_sentiment]

lemma align_eq_claim (t sl : String)
    (ht : t ∈ ["strong_up", "up", "strong_down", "down", "stable"])
    (hsl : sl ∈ ["very_positive", "positive", "very_negative", "negative", "neutral"]) :
    Engine.alignment_score t sl = Engine.claimAlignBase t sl := by
  fin_cases ht <;> fin_cases hsl <;> rfl

/-- C2: for every finite numeric input with nonzero current price, the
confidence equals min of 1 and the alignment base of the two labels (the
specification's four-bucket table) plus the magnitude bonus
min(|pct|/2, 1)/5 plus the sentiment-strength bonus min(|s|*2, 1)/5. -/
theorem c2_confidence_formula (current predicted sentiment : ℚ) (h : current ≠ 0) :
    (Engine.generate_recommendation current predicted sentiment).confidence =
      min 1 (Engine.claimAlignBase (Engine.analyze_price_trend current predicted).1
               (Engine.analyze_sentiment sentiment).1
             + min (|(predicted - current) / current * 100| / 2) 1 * (1/5)
             + min (|sentiment| * 2) 1 * (1/5)) := by
  have hb := align_eq_claim (Engine.analyze_price_trend current predicted).1
    (Engine.analyze_sentiment sentiment).1
    (trend_label_mem current predicted) (sent_label_mem sentiment)
  have hconf : (Engine.generate_recommendation current predicted sentiment).confidence =
      Engine.calculate_confidence (Engine.analyze_price_trend current predicted).1
        (Engine.analyze_sentiment sentiment).1
        (Engine.analyze_price_trend current predicted).2 sentiment := rfl
  rw [hconf]
  unfold Engine.calculate_confidence
  rw [trend_pct_eq, hb, min_comm]

/-- Witness for C2 at current 1800, predicted 1850, sentiment one half: the
base is 0.8, both bonuses saturate at 0.2, and the cap brings the
confidence to exactly 1. -/
theorem c2_witness : (Engine.generate_recommendation 1800 1850 (1/2)).confidence = 1 := by
  have h := c2_confidence_formula 1800 1850 (1/2) (by norm_num)
  rw [h]
  have h1 : (Engine.analyze_price_trend 1800 1850).1 = "strong_up" := by
    norm_num [Engine.analyze_price_trend]
  have h2 : (Engine.analyze_sentiment ((1:ℚ)/2)).1 = "very_positive" := by
    norm_num [Engine.analyze_sentiment]
  rw [h1, h2]
  rw [show |((1850:ℚ) - 1800) / 1800 * 100| = ((1850:ℚ) - 1800) / 1800 * 100 from
    abs_of_nonneg (by norm_num)]
  rw [show |((1:ℚ)/2)| = (1:ℚ)/2 from abs_of_nonneg (by norm_num)]
  norm_num [Engine.claimAlignBase, min_def]

lemma alignment_score_lb (t sl : String) : 1/5 ≤ Engine.alignment_score t sl := by
  unfold Engine.alignment_score
  split_ifs <;> norm_num

/-- C10: for every finite numeric input with nonzero current price, the
confidence lies in the closed interval from one fifth to one: the alignment
base is at least one fifth and the two bonus terms are nonnegative. -/
theorem c10_confidence_bounds (current predicted sentiment : ℚ) (h : current ≠ 0) :
    1/5 ≤ (Engine.generate_recommendation current predicted sentiment).confidence ∧
    (Engine.generate_recommendation current predicted sentiment).confidence ≤ 1 := by
  have hA := alignment_score_lb (Engine.analyze_price_trend current predicted).1
    (Engine.analyze_sentiment sentiment).1
  have hconf : (Engine.generate_recommendation current predicted sentiment).confidence =
      Engine.calculate_confidence (Engine.analyze_price_trend current predicted).1
        (Engine.analyze_sentiment sentiment).1
        (Engine.analyze_price_trend current predicted).2 sentiment := rfl
  rw [hconf]
  unfold Engine.calculate_confidence
  have hm1 : (0:ℚ) ≤ min (|(Engine.analyze_price_trend current predicted).2| / 2) 1 * (1/5) :=
    mul_nonneg (le_min (by positivity) (by norm_num)) (by norm_num)
  have hm2 : (0:ℚ) ≤ min (|sentiment| * 2) 1 * (1/5) :=
    mul_nonneg (le_min (by positivity) (by norm_num)) (by norm_num)
  constructor
  · exact le_min (by linarith) (by norm_num)
  · exact min_le_right _ _

/-- Witness for C10 at current 1800, predicted 1850, sentiment one half; the
confidence (which is exactly 1 there) lies in the claimed interval. -/
theorem c10_witness :
    1/5 ≤ (Engine.generate_recommendation 1800 1850 (1/2)).confidence ∧
    (Engine.generate_recommendation 1800 1850 (1/2)).confidence ≤ 1 :=
  c10_confidence_bounds 1800 1850 (1/2) (by norm_num)

/-! ## Keyword sentiment scorer lemmas -/

/-- C4: for every input text the keyword scorer returns the polarity
(positive hits minus negative hits) over the total hit count, returning
exactly 0 with the neutral label when the total is 0, and the polarity
always lies in the closed interval from minus one to one. -/
theorem c4_polarity_bounds (text : String) :
    (SentimentRT.analyze_sentiment text).1 =
      (if SentimentRT.total_keywords text = 0 then 0
       else ((SentimentRT.positive_count text : ℚ) - (SentimentRT.negative_count text : ℚ))
              / (SentimentRT.total_keywords text : ℚ)) ∧
    -1 ≤ (SentimentRT.analyze_sentiment text).1 ∧
    (SentimentRT.analyze_sentiment text).1 ≤ 1 ∧
    (SentimentRT.total_keywords text = 0 →
      SentimentRT.analyze_sentiment text = (0, "neutral")) := by
  by_cases h0 : SentimentRT.total_keywords text = 0
  · refine ⟨?_, ?_, ?_, fun _ => ?_⟩ <;>
      simp [SentimentRT.analyze_sentiment, h0]
  · have htot : 0 < (SentimentRT.total_keywords text : ℚ) := by
      have := Nat.pos_of_ne_zero h0
      exact_mod_cast this
    have hp : (SentimentRT.positive_count text : ℚ) ≤ (SentimentRT.total_keywords text : ℚ) := by
      have : SentimentRT.positive_count text ≤ SentimentRT.total_keywords text := by
        unfold SentimentRT.total_keywords; omega
      exact_mod_cast this
    have hn : (SentimentRT.negative_count text : ℚ) ≤ (SentimentRT.total_keywords text : ℚ) := by
      have : SentimentRT.negative_count text ≤ SentimentRT.total_keywords text := by
        unfold SentimentRT.total_keywords; omega
      exact_mod_cast this
    have hppos : (0:ℚ) ≤ (SentimentRT.positive_count text : ℚ) := by positivity
    have hnpos : (0:ℚ) ≤ (SentimentRT.negative_count text : ℚ) := by positivity
    have hval : (SentimentRT.analyze_sentiment text).1 =
        ((SentimentRT.positive_count text : ℚ) - (SentimentRT.negative_count text : ℚ))
          / (SentimentRT.total_keywords text : ℚ) := by
      simp [SentimentRT.analyze_sentiment, h0]
    refine ⟨?_, ?_, ?_, fun hcon => absurd hcon h0⟩
    · simp [hval, h0]
    · rw [hval, le_div_iff₀ htot]
      linarith
    · rw [hval, div_le_one htot]
      linarith

/-- Witness for C4 at a text with no keyword occurrences: the scorer returns
polarity exactly 0 with the neutral label. -/
theorem c4_witness : SentimentRT.analyze_sentiment "qqq" = (0, "neutral") := by
  have h := c4_polarity_bounds "qqq"
  exact h.2.2.2 (by decide)

/-! ## Preprocessor lemmas -/

lemma filter_by_date_length (sent : List Prep.SentRow) (d : ℕ)
    (hs : (sent.map Prep.SentRow.date).Nodup) :
    (sent.filter (fun s => s.date == d)).length ≤ 1 := by
  induction sent with
  | nil => simp
  | cons s t ih =>
    simp only [List.map_cons, List.nodup_cons] at hs
    by_cases h : s.date = d
    · have ht : t.filter (fun s2 => s2.date == d) = [] := by
        rw [List.filter_eq_nil_iff]
        intro x hx
        simp only [beq_iff_eq]
        intro hxd
        exact hs.1 (List.mem_map.mpr ⟨x, hx, by rw [hxd, h]⟩)
      simp [List.filter_cons, h, ht]
    · simp only [List.filter_cons, beq_iff_eq, h]
      simpa using ih hs.2

lemma merge_rows_single (sent : List Prep.SentRow)
    (hs : (sent.map Prep.SentRow.date).Nodup) (g : ℕ × ℚ) :
    ∃ r : Prep.MergedRow, Prep.merge_rows sent g = [r] ∧ r.date = g.1 ∧
      (g.1 ∉ sent.map Prep.SentRow.date → r.sentiment_score = 0 ∧ r.news = "") := by
  have hlen := filter_by_date_length sent g.1 hs
  cases hfe : sent.filter (fun s => s.date == g.1) with
  | nil =>
    refine ⟨⟨g.1, g.2, 0, ""⟩, ?_, rfl, fun _ => ⟨rfl, rfl⟩⟩
    simp [Prep.merge_rows, hfe]
  | cons s ss =>
    cases ss with
    | nil =>
      have hsmem : s ∈ sent ∧ s.date = g.1 := by
        have hin : s ∈ sent.filter (fun s2 => s2.date == g.1) := by
          rw [hfe]; exact List.mem_singleton_self s
        have := List.mem_filter.mp hin
        exact ⟨this.1, by simpa using this.2⟩
      refine ⟨⟨g.1, g.2, s.sentiment_score, s.news⟩, ?_, rfl, ?_⟩
      · simp [Prep.merge_rows, hfe]
      · intro hnot
        exact absurd (List.mem_map.mpr ⟨s, hsmem.1, hsmem.2⟩) hnot
    | cons s2 ss2 =>
      rw [hfe] at hlen
      simp at hlen

lemma flatten_merge_dates (gold : List (ℕ × ℚ)) (sent : List Prep.SentRow)
    (hs : (sent.map Prep.SentRow.date).Nodup) :
    ((gold.map (Prep.merge_rows sent)).flatten).map Prep.MergedRow.date = gold.map Prod.fst := by
  induction gold with
  | nil => rfl
  | cons g t ih =>
    obtain ⟨r, hr, hd, hfill⟩ := merge_rows_single sent hs g
    simp [hr, hd, ih]

/-- C5 (amended): when the surviving price rows carry pairwise distinct
dates and the sentiment rows carry pairwise distinct dates, the merged
output is sorted ascending by date, has no duplicate dates, carries exactly
the dates of the surviving price rows, and every row whose date matches no
sentiment date carries sentiment 0 and an empty headline. -/
theorem c5_merge_invariants (rows : List Prep.GoldRow) (sent : List Prep.SentRow)
    (hg : ((Prep.valid_gold_rows rows).map Prod.fst).Nodup)
    (hs : (sent.map Prep.SentRow.date).Nodup) :
    (Prep.preprocess rows sent).Sorted Prep.mergedLe ∧
    ((Prep.preprocess rows sent).map Prep.MergedRow.date).Nodup ∧
    (∀ d, d ∈ (Prep.preprocess rows sent).map Prep.MergedRow.date ↔
      d ∈ (Prep.valid_gold_rows rows).map Prod.fst) ∧
    (∀ r ∈ Prep.preprocess rows sent, r.date ∉ sent.map Prep.SentRow.date →
      r.sentiment_score = 0 ∧ r.news = "") := by
  have hflat : Prep.preprocess rows sent =
      (((Prep.clean_gold_data rows).map (Prep.merge_rows sent)).flatten).insertionSort
        Prep.mergedLe := rfl
  have hperm : List.Perm (Prep.preprocess rows sent)
      (((Prep.clean_gold_data rows).map (Prep.merge_rows sent)).flatten) := by
    rw [hflat]; exact List.perm_insertionSort Prep.mergedLe _
  have hcleanperm : List.Perm (Prep.clean_gold_data rows) (Prep.valid_gold_rows rows) :=
    List.perm_insertionSort Prep.goldLe _
  have hdates : ((Prep.clean_gold_data rows).map (Prep.merge_rows sent)).flatten.map
      Prep.MergedRow.date = (Prep.clean_gold_data rows).map Prod.fst :=
    flatten_merge_dates _ sent hs
  have hdperm : List.Perm ((Prep.preprocess rows sent).map Prep.MergedRow.date)
      ((Prep.valid_gold_rows rows).map Prod.fst) := by
    have step1 := hperm.map Prep.MergedRow.date
    rw [hdates] at step1
    exact step1.trans (hcleanperm.map Prod.fst)
  refine ⟨?_, ?_, ?_, ?_⟩
  · rw [hflat]
    exact List.sorted_insertionSort Prep.mergedLe _
  · exact hdperm.nodup_iff.mpr hg
  · intro d
    exact hdperm.mem_iff
  · intro r hr hnot
    have hrflat : r ∈ ((Prep.clean_gold_data rows).map (Prep.merge_rows sent)).flatten :=
      hperm.subset hr
    obtain ⟨l, hl, hrl⟩ := List.mem_flatten.mp hrflat
    obtain ⟨g, hgmem, hgl⟩ := List.mem_map.mp hl
    obtain ⟨r0, hr0, hd0, hfill⟩ := merge_rows_single sent hs g
    rw [← hgl, hr0] at hrl
    have : r = r0 := List.mem_singleton.mp hrl
    subst this
    exact hfill (by rw [← hd0]; exact hnot)

/-- Witness for C5 at a one-row gold frame with no sentiment rows. -/
theorem c5_witness :
    (Prep.preprocess [⟨1, some 10⟩] []).Sorted Prep.mergedLe ∧
    ((Prep.preprocess [⟨1, some 10⟩] []).map Prep.MergedRow.date).Nodup ∧
    (∀ d, d ∈ (Prep.preprocess [⟨1, some 10⟩] []).map Prep.MergedRow.date ↔
      d ∈ (Prep.valid_gold_rows [⟨1, some 10⟩]).map Prod.fst) ∧
    (∀ r ∈ Prep.preprocess [⟨1, some 10⟩] [], r.date ∉ ([] : List Prep.SentRow).map Prep.SentRow.date →
      r.sentiment_score = 0 ∧ r.news = "") :=
  c5_merge_invariants [⟨1, some 10⟩] [] (by decide) (by decide)

/-! ## Forecaster horizon lemmas -/

lemma predict_horizon_length (p : List Predictor.SeriesRow → ℚ) (data : List Predictor.SeriesRow)
    (n : ℕ) : (Predictor.predict_horizon p data n).length = n := by
  induction n generalizing data with
  | zero => rfl
  | succ n ih => simp [Predictor.predict_horizon, ih]

lemma working_series_shift (p : List Predictor.SeriesRow → ℚ) (data : List Predictor.SeriesRow)
    (i : ℕ) : Predictor.working_series p data (i + 1) =
      Predictor.working_series p (Predictor.append_synthetic p data) i := by
  induction i with
  | zero => rfl
  | succ i ih =>
    have step : Predictor.working_series p data (i + 1 + 1) =
        Predictor.append_synthetic p (Predictor.working_series p data (i + 1)) := rfl
    rw [step, ih]
    rfl

lemma predict_horizon_get (p : List Predictor.SeriesRow → ℚ) (n : ℕ) :
    ∀ (i : ℕ) (data : List Predictor.SeriesRow), i < n →
      (Predictor.predict_horizon p data n)[i]? =
        some (p (Predictor.working_series p data i)) := by
  induction n with
  | zero => intro i data h; exact absurd h (Nat.not_lt_zero i)
  | succ n ih =>
    intro i data h
    cases i with
    | zero => simp [Predictor.predict_horizon, Predictor.working_series]
    | succ i =>
      have h2 : i < n := Nat.lt_of_succ_lt_succ h
      have hcons : (Predictor.predict_horizon p data (n + 1))[i + 1]? =
          (Predictor.predict_horizon p (Predictor.append_synthetic p data) n)[i]? := by
        simp [Predictor.predict_horizon]
      rw [hcons, ih i (Predictor.append_synthetic p data) h2, ← working_series_shift]

/-- C6: the horizon forecast returns exactly n values, and the value of step
i is the single-step prediction applied to the working series after i steps,
each step extending the series with a synthetic row carrying that step's
prediction and the mean sentiment of the series observed so far; the
predict_next_week entry point is the seven-step instance. -/
theorem c6_horizon_structure (p : List Predictor.SeriesRow → ℚ)
    (data : List Predictor.SeriesRow) (n : ℕ) :
    ((Predictor.predict_horizon p data n).length = n ∧
     ∀ i, i < n → (Predictor.predict_horizon p data n)[i]? =
       some (p (Predictor.working_series p data i))) ∧
    ((Predictor.predict_next_week p data).length = 7 ∧
     ∀ i, i < 7 → (Predictor.predict_next_week p data)[i]? =
       some (p (Predictor.working_series p data i))) :=
  ⟨⟨predict_horizon_length p data n, fun i h => predict_horizon_get p n i data h⟩,
   ⟨predict_horizon_length p data 7, fun i h => predict_horizon_get p 7 i data h⟩⟩

/-- Witness for C6 with the row-count function as single-step predictor on
the empty series: step 1 of a two-step horizon predicts on the series
extended by one synthetic row, hence returns 1. -/
theorem c6_witness :
    (Predictor.predict_horizon (fun l => (l.length : ℚ)) [] 2)[1]? = some 1 := by
  have h := (c6_horizon_structure (fun l => (l.length : ℚ)) [] 2).1.2 1 (by norm_num)
  rw [h]
  norm_num [Predictor.working_series, Predictor.append_synthetic]

/-! ## Forecaster window and persistence lemmas -/

lemma tail_rows_short (data : List Predictor.SeriesRow) (n : ℕ) (h : data.length ≤ n) :
    Predictor.tail_rows data n = data := by
  unfold Predictor.tail_rows
  rw [Nat.sub_eq_zero_of_le h, List.drop_zero]

/-- C7 (amended): with a trained state whose fitted feature width is twice
the configured window (as training produces), predict_next_day on fewer
rows than the window fails because the model rejects the too-short feature
vector (there is no dedicated insufficient-data check), on exactly
window-many rows it succeeds with a value, and on any untrained state it
fails with the not-trained error. -/
theorem c7_window_behavior :
    (∀ (st : Predictor.GoldPricePredictor) (data : List Predictor.SeriesRow),
      st.is_trained = true → st.model.n_features = 2 * st.sequence_length →
      (data.length < st.sequence_length →
        Predictor.predict_next_day st data = .error .featureShapeMismatch) ∧
      (data.length = st.sequence_length →
        ∃ q, Predictor.predict_next_day st data = .ok q)) ∧
    (∀ (st : Predictor.GoldPricePredictor) (data : List Predictor.SeriesRow),
      st.is_trained = false →
      Predictor.predict_next_day st data = .error .notTrained) := by
  constructor
  · intro st data htr hfeat
    have htail : Predictor.tail_rows data st.sequence_length = data ∨
        (Predictor.tail_rows data st.sequence_length).length = st.sequence_length := by
      by_cases h : data.length ≤ st.sequence_length
      · exact Or.inl (tail_rows_short data st.sequence_length h)
      · right
        unfold Predictor.tail_rows
        rw [List.length_drop]
        omega
    constructor
    · intro hshort
      have heq : Predictor.tail_rows data st.sequence_length = data :=
        tail_rows_short data st.sequence_length (Nat.le_of_lt hshort)
      unfold Predictor.predict_next_day
      rw [htr]
      simp only [Bool.true_eq_false, if_false, heq]
      have hrun : st.model.run
          ((data.map (fun r => Predictor.scale st.scaler_price r.price)) ++
           (data.map (fun r => Predictor.scale st.scaler_sentiment r.sentiment_score))) = none := by
        unfold Predictor.FittedModel.run
        rw [List.length_append, List.length_map, List.length_map, hfeat]
        rw [if_neg (by omega)]
      rw [hrun]
    · intro hexact
      have heq : Predictor.tail_rows data st.sequence_length = data :=
        tail_rows_short data st.sequence_length (Nat.le_of_eq hexact)
      unfold Predictor.predict_next_day
      rw [htr]
      simp only [Bool.true_eq_false, if_false, heq]
      have hrun : st.model.run
          ((data.map (fun r => Predictor.scale st.scaler_price r.price)) ++
           (data.map (fun r => Predictor.scale st.scaler_sentiment r.sentiment_score))) =
          some (st.model.eval
            ((data.map (fun r => Predictor.scale st.scaler_price r.price)) ++
             (data.map (fun r => Predictor.scale st.scaler_sentiment r.sentiment_score)))) := by
        unfold Predictor.FittedModel.run
        rw [List.length_append, List.length_map, List.length_map, hfeat]
        rw [if_pos (by omega)]
      rw [hrun]
      exact ⟨_, rfl⟩
  · intro st data hun
    unfold Predictor.predict_next_day
    rw [hun]
    rfl

/-- Witness for C7: the toy trained window-2 state succeeds on exactly two
rows, and the fresh untrained state fails with the not-trained error. -/
theorem c7_witness :
    (∃ q, Predictor.predict_next_day Predictor.toy_state
      [⟨0, 1, 0, ""⟩, ⟨1, 2, 0, ""⟩] = .ok q) ∧
    Predictor.predict_next_day Predictor.fresh_state [] = .error .notTrained :=
  ⟨(c7_window_behavior.1 Predictor.toy_state [⟨0, 1, 0, ""⟩, ⟨1, 2, 0, ""⟩] rfl rfl).2 rfl,
   c7_window_behavior.2 Predictor.fresh_state [] rfl⟩

/-- Counterexample for C7 as stated: on a one-row series the trained
window-2 state fails with the model's feature-shape rejection, which is a
different error than the dedicated insufficient-data error the claim
names (no code path of the predictor raises that error). -/
theorem c7_counterexample :
    Predictor.predict_next_day Predictor.toy_state [⟨0, 5, 0, ""⟩] =
      .error .featureShapeMismatch ∧
    (Except.error Predictor.PredictError.featureShapeMismatch ≠
      (Except.error Predictor.PredictError.insufficientData : Except Predictor.PredictError ℚ)) := by
  constructor
  · exact (c7_window_behavior.1 Predictor.toy_state [⟨0, 5, 0, ""⟩] rfl rfl).1 (by decide)
  · intro h
    exact absurd (Except.error.inj h) (by decide)

/-- C9: the exported blobs of demo_exporter (window 30, model fitted on 60
features) import into a fresh window-10 forecaster without any failure: the
loaded state is marked trained, keeps the importing window 10, carries the
60-feature model, and a subsequent full-window prediction fails with a
feature-shape rejection; no window-size check exists and the blobs carry no
window size. -/
theorem c9_silent_load :
    Predictor.demo_loaded.is_trained = true ∧
    Predictor.demo_loaded.sequence_length = 10 ∧
    Predictor.demo_loaded.model.n_features = 60 ∧
    Predictor.predict_next_day Predictor.demo_loaded Predictor.ten_rows =
      .error .featureShapeMismatch := by
  refine ⟨rfl, rfl, rfl, ?_⟩
  have hlen : Predictor.ten_rows.length = 10 := by
    unfold Predictor.ten_rows
    rw [List.length_map, List.length_range]
  have heq : Predictor.tail_rows Predictor.ten_rows
      Predictor.demo_loaded.sequence_length = Predictor.ten_rows :=
    tail_rows_short _ _ (by rw [hlen]; exact Nat.le_refl 10)
  unfold Predictor.predict_next_day
  simp only [heq]
  have hrun : Predictor.demo_loaded.model.run
      ((Predictor.ten_rows.map (fun r => Predictor.scale Predictor.demo_loaded.scaler_price r.price)) ++
       (Predictor.ten_rows.map (fun r => Predictor.scale Predictor.demo_loaded.scaler_sentiment r.sentiment_score))) = none := by
    unfold Predictor.FittedModel.run
    rw [List.length_append, List.length_map, List.length_map, hlen]
    rfl
  rw [hrun]
  rfl

/-! ## NaN behaviour of the recommendation engine -/

/-- C8: with a NaN predicted price (current 1800, sentiment 0) the engine
does not fail; every comparison with NaN is false, so the trend classifies
as stable, and the returned recommendation is HOLD with a NaN confidence
and a NaN percent change: the NaN propagates silently into the returned
record instead of raising any invalid-input error. -/
theorem c8_nan_propagates :
    FloatModel.generate_recommendationF (some 1800) none (some 0) = ("HOLD", none, none) := by
  norm_num [FloatModel.generate_recommendationF, FloatModel.analyze_price_trendF,
    FloatModel.analyze_sentimentF, FloatModel.calculate_confidenceF,
    FloatModel.pf_add, FloatModel.pf_sub, FloatModel.pf_mul, FloatModel.pf_div,
    FloatModel.pf_abs, FloatModel.pf_lt, FloatModel.pf_gt, FloatModel.pf_min,
    Engine.recommendation_action, Engine.alignment_score, Engine.trendUp,
    Engine.trendDown, Engine.sentPos, Engine.sentNeg]
  decide

/-- Counterexample for C5 as stated: a gold frame with two surviving rows on
the same date yields two merged rows with that date, so the output does not
have exactly one row per distinct price date and its date column is not
duplicate-free. -/
theorem c5_counterexample :
    (Prep.preprocess [⟨1, some 10⟩, ⟨1, some 12⟩] []).map Prep.MergedRow.date = [1, 1] ∧
    ¬ ([1, 1] : List ℕ).Nodup := by
  constructor
  · simp [Prep.preprocess, Prep.merge_data, Prep.clean_gold_data, Prep.valid_gold_rows,
      Prep.merge_rows, Prep.mergedLe, Prep.goldLe, List.insertionSort, List.orderedInsert]
  · decide
